import Mathlib

/-!
Verification of the soil-advisory core (GPS profile resolver, STCR fertilizer
calculator, lime calculator, farmer-view unit conversion) against its
natural-language specification.

The Python source is shallowly embedded over the rationals: every numeric
quantity is a `Rat`, every fallible operation returns `Except String` (a
raised, uncaught Python exception is `Except.error`; a structured error
payload returned to the caller is an `ok` value carrying an error record).
Python `round(x, n)` operates on binary floats and breaks exact decimal ties
toward even; it is modelled here as round-half-up on rationals.  Exact ties
are essentially never hit by binary floats, and every theorem below is either
insensitive to the tie direction or carries an explicit rounding tolerance.
-/

/-- Python round(x, 1) on rationals (round to one decimal place). -/
def round1 (q : ℚ) : ℚ := (⌊q * 10 + 1/2⌋ : ℤ) / 10

/-- Python round(x, 2) on rationals (round to two decimal places). -/
def round2 (q : ℚ) : ℚ := (⌊q * 100 + 1/2⌋ : ℤ) / 100

/-- Python `a % b` on rationals (sign follows the divisor; here only used with
positive integral divisors). -/
def pyMod (a b : ℚ) : ℚ := a - b * ⌊a / b⌋

/-- Python `int(x)`: truncation toward zero. -/
def pyInt (q : ℚ) : ℤ := if q < 0 then -⌊-q⌋ else ⌊q⌋

/-- A JSON scalar as far as the request layer inspects it: a number or a
string.  Python float("...") on a numeric string is not modelled; the spec's
malformed-input scenarios all use non-numeric strings. -/
inductive PyVal
  | num (q : ℚ)
  | str (s : String)
deriving DecidableEq, Repr

/-- Python float(v) restricted to the two JSON scalar shapes: numbers parse,
non-numeric strings raise ValueError (here: none). -/
def pyFloat : PyVal → Option ℚ
  | .num q => some q
  | .str _ => none

/-- Python str.lower() (ASCII identifiers only in this code base). -/
def pyLower (s : String) : String := ⟨s.data.map Char.toLower⟩

/-! ## STCR fertilizer calculator (src/app/core/stcr_fertilizer.py) -/

/-- A validated low/medium/high soil-test status (the source uses strings and
raises KeyError on anything else; the claims quantify over valid statuses). -/
inductive Status
  | low
  | medium
  | high
deriving DecidableEq, Repr

/-- One crop row of CROP_NUTRIENT_UPTAKE.  The per-plant doses model the
`crop_data.get("n_per_palm", crop_data.get("n_per_vine", 100))` lookup chain:
for arecanut/coconut they are the *_per_palm values, for pepper the
*_per_vine values, and for the remaining (non-fixed-dose, so the values are
never read) crops the 100/40/140 defaults.  Kannada display strings are not
modelled. -/
structure CropData where
  n_uptake : ℚ
  p_uptake : ℚ
  k_uptake : ℚ
  min_yield : ℚ
  max_yield : ℚ
  typical_yield : ℚ
  fixed_dose : Bool
  n_per_plant : ℚ
  p_per_plant : ℚ
  k_per_plant : ℚ
deriving DecidableEq, Repr

/-- CROP_NUTRIENT_UPTAKE (stcr_fertilizer.py lines 23-123). -/
def CROP_NUTRIENT_UPTAKE : String → Option CropData
  | "paddy" => some ⟨22, 4.5, 25, 2, 8, 4.5, false, 100, 40, 140⟩
  | "finger_millet" => some ⟨28, 5, 30, 1.5, 4, 2.5, false, 100, 40, 140⟩
  | "arecanut" => some ⟨0.1, 0.04, 0.15, 1, 3, 2, true, 100, 40, 140⟩
  | "coconut" => some ⟨5, 3.2, 12, 50, 150, 80, true, 500, 320, 1200⟩
  | "banana" => some ⟨7, 1.5, 17, 30, 70, 50, false, 100, 40, 140⟩
  | "pepper" => some ⟨25, 5, 20, 1, 5, 2, true, 50, 20, 100⟩
  | "ginger" => some ⟨6.5, 1.5, 10, 8, 25, 15, false, 100, 40, 140⟩
  | "turmeric" => some ⟨5, 1.2, 8, 5, 15, 8, false, 100, 40, 140⟩
  | _ => none

/-- SOIL_CONTRIBUTION["nitrogen"]. -/
def soilContributionN : Status → ℚ
  | .low => 0.3
  | .medium => 0.5
  | .high => 0.7

/-- SOIL_CONTRIBUTION["phosphorus"]. -/
def soilContributionP : Status → ℚ
  | .low => 0.2
  | .medium => 0.4
  | .high => 0.6

/-- SOIL_CONTRIBUTION["potassium"]. -/
def soilContributionK : Status → ℚ
  | .low => 0.3
  | .medium => 0.5
  | .high => 0.7

/-- P_FIXATION_FACTORS.get(soil_type, 0.30). -/
def pFixationFactor (soil_type : String) : ℚ :=
  match soil_type with
  | "lateritic" => 0.55
  | "coastal_sandy" => 0.15
  | "alluvial" => 0.25
  | "black_clay" => 0.35
  | "acid_saline" => 0.30
  | _ => 0.30

/-- PREVIOUS_CROP_CREDITS.get(previous_crop, 0). -/
def previousCropCredit (previous_crop : String) : ℚ :=
  match previous_crop with
  | "paddy" => 0
  | "groundnut" => 25
  | "cowpea" => 35
  | "green_gram" => 25
  | "black_gram" => 20
  | "soybean" => 30
  | "dhaincha" => 40
  | "sesbania" => 45
  | "fallow" => 0
  | _ => 0

/-- One stage of a mass-valued split schedule (the yield-target path). -/
structure SplitStage where
  stage : String
  urea_kg : ℚ
  dap_kg : ℚ
  mop_kg : ℚ
deriving DecidableEq, Repr

/-- One stage of a percentage-valued split schedule (the fixed-dose path). -/
structure PctStage where
  stage : String
  n_pct : ℚ
  p_pct : ℚ
  k_pct : ℚ
deriving DecidableEq, Repr

/-- The two shapes the heterogeneous Python splits dict can take. -/
inductive SplitSchedule
  | masses (stages : List SplitStage)
  | percents (stages : List PctStage)
deriving DecidableEq, Repr

/-- The three warning conditions of STCRCalculator.calculate, as tags (the
source emits Kannada strings). -/
inductive StcrWarning
  | highYieldTarget
  | highPFixation
  | nCreditApplied
deriving DecidableEq, Repr

/-- STCRResult without the Kannada display fields (crop_kannada,
kannada_summary and yield_unit are pure presentation derived from the fields
kept here). -/
structure STCRResult where
  crop : String
  target_yield : ℚ
  n_required : ℚ
  p_required : ℚ
  k_required : ℚ
  urea_kg : ℚ
  dap_kg : ℚ
  mop_kg : ℚ
  n_credit : ℚ
  p_fixation_factor : ℚ
  splits : SplitSchedule
  warnings : List StcrWarning
deriving DecidableEq, Repr

/-- STCRCalculator._get_splits. -/
def getSplits (crop : String) (urea dap mop : ℚ) : SplitSchedule :=
  if crop = "paddy" then
    .masses
      [⟨"basal", round1 (urea * 0.5), dap, round1 (mop * 0.5)⟩,
       ⟨"tillering", round1 (urea * 0.25), 0, 0⟩,
       ⟨"panicle", round1 (urea * 0.25), 0, round1 (mop * 0.5)⟩]
  else
    .masses
      [⟨"basal", round1 (urea * 0.5), dap, round1 (mop * 0.5)⟩,
       ⟨"top_dress", round1 (urea * 0.5), 0, round1 (mop * 0.5)⟩]

/-- The {"low": 1.0, "medium": 0.75, "high": 0.5} soil-status adjustment of
the fixed-dose path. -/
def statusAdj : Status → ℚ
  | .low => 1
  | .medium => 0.75
  | .high => 0.5

/-- STCRCalculator._calculate_fixed_dose.  The per-hectare informational
totals (urea_g * plants_per_ha / 1000 and friends) feed only the Kannada
summary and are not part of the embedded result. -/
def calculateFixedDose (crop : String) (cd : CropData) (y : ℚ)
    (sn sp sk : Status) : STCRResult :=
  let n_required := cd.n_per_plant * statusAdj sn
  let p_required := cd.p_per_plant * statusAdj sp
  let k_required := cd.k_per_plant * statusAdj sk
  let urea_g := n_required / 0.46
  let dap_g := p_required / 0.46
  let mop_g := k_required / 0.60
  { crop := crop
    target_yield := y
    n_required := round1 n_required
    p_required := round1 p_required
    k_required := round1 k_required
    urea_kg := round1 urea_g
    dap_kg := round1 dap_g
    mop_kg := round1 mop_g
    n_credit := 0
    p_fixation_factor := 0
    splits := .percents
      [⟨"basal", 50, 100, 50⟩, ⟨"top_dress_1", 25, 0, 25⟩,
       ⟨"top_dress_2", 25, 0, 25⟩]
    warnings := [] }

/-- The yield-target branch of STCRCalculator.calculate (everything after the
fixed-dose dispatch). -/
def calculateYieldTarget (crop : String) (cd : CropData) (y : ℚ)
    (sn sp sk : Status) (soil_type previous_crop : String) : STCRResult :=
  let cs_n := soilContributionN sn
  let cs_p := soilContributionP sp
  let cs_k := soilContributionK sk
  let p_fix := pFixationFactor soil_type
  let n_credit := previousCropCredit previous_crop
  let n_uptake := y * cd.n_uptake
  let p_uptake := y * cd.p_uptake
  let k_uptake := y * cd.k_uptake
  let n_required := max 0 ((n_uptake * (1 - cs_n) - n_credit) / 0.50)
  let p_required := max 0 ((p_uptake * (1 - cs_p)) / (0.25 * (1 - p_fix)))
  let k_required := max 0 ((k_uptake * (1 - cs_k)) / 0.60)
  let dap_raw := p_required / 0.46
  let n_from_dap := dap_raw * 0.18
  let urea_raw := max 0 ((n_required - n_from_dap) / 0.46)
  let mop_raw := k_required / 0.60
  let urea_kg := round1 urea_raw
  let dap_kg := round1 dap_raw
  let mop_kg := round1 mop_raw
  let warnings :=
    (if y > cd.typical_yield * 1.2 then [StcrWarning.highYieldTarget] else [])
      ++ (if p_fix > 0.4 then [StcrWarning.highPFixation] else [])
      ++ (if n_credit > 0 then [StcrWarning.nCreditApplied] else [])
  { crop := crop
    target_yield := y
    n_required := round1 n_required
    p_required := round1 p_required
    k_required := round1 k_required
    urea_kg := urea_kg
    dap_kg := dap_kg
    mop_kg := mop_kg
    n_credit := n_credit
    p_fixation_factor := p_fix
    splits := getSplits crop urea_kg dap_kg mop_kg
    warnings := warnings }

/-- calculate_fertilizer / STCRCalculator.__init__ + calculate: crop lookup
(ValueError for an unknown crop, modelled as Except.error), yield clamping to
[min_yield, max_yield], then dispatch on the fixed_dose flag. -/
def calculateFertilizer (crop : String) (target_yield : ℚ)
    (sn sp sk : Status) (soil_type previous_crop : String) :
    Except String STCRResult :=
  let c := pyLower crop
  match CROP_NUTRIENT_UPTAKE c with
  | none => Except.error ("Unknown crop: " ++ crop)
  | some cd =>
    let y :=
      if target_yield < cd.min_yield then cd.min_yield
      else if target_yield > cd.max_yield then cd.max_yield
      else target_yield
    if cd.fixed_dose then Except.ok (calculateFixedDose c cd y sn sp sk)
    else Except.ok (calculateYieldTarget c cd y sn sp sk soil_type previous_crop)

/-! ## Lime calculator (src/app/core/lime_calculator.py) -/

/-- The warning conditions of the lime calculator, as tags (the source emits
Kannada strings). -/
inductive LimeWarning
  | noLimeNeeded
  | veryAcidSoil
  | splitApplication
  | doBufferTest
deriving DecidableEq, Repr

/-- LimeResult without the Kannada display fields. -/
structure LimeResult where
  needs_lime : Bool
  lime_required_t_ha : ℚ
  product_amount_t_ha : ℚ
  product_type : String
  bags_per_acre : ℤ
  target_ph : ℚ
  current_ph : ℚ
  method_used : String
  confidence : String
  warnings : List LimeWarning
deriving DecidableEq, Repr

/-- LimeCalculator._get_product: scan the LimeProduct enum for a name match,
defaulting to dolomite; kept as (name, neutralizing value). -/
def limeProduct (name : String) : String × ℚ :=
  match name with
  | "calcite" => ("calcite", 100)
  | "dolomite" => ("dolomite", 109)
  | "quicklime" => ("quicklime", 179)
  | "hydrated_lime" => ("hydrated_lime", 136)
  | "shell_lime" => ("shell_lime", 85)
  | "slag" => ("slag", 80)
  | _ => ("dolomite", 109)

/-- TARGET_PH.get(soil_type, 6.5). -/
def targetPh (soil_type : String) : ℚ :=
  match soil_type with
  | "lateritic" => 6.0
  | "coastal_sandy" => 6.5
  | "alluvial" => 6.5
  | "black_clay" => 7.0
  | "acid_saline" => 6.0
  | _ => 6.5

/-- TEXTURE_FACTORS.get(soil_texture, 1.0). -/
def textureFactor (t : String) : ℚ :=
  match t with
  | "sandy" => 0.6
  | "sandy_loam" => 0.8
  | "loam" => 1.0
  | "silt_loam" => 1.1
  | "clay_loam" => 1.2
  | "clay" => 1.5
  | _ => 1.0

/-- depth_factor(depth_cm) = depth_cm / 15.0. -/
def depthFactor (depth_cm : ℤ) : ℚ := (depth_cm : ℚ) / 15

/-- The constructor state of LimeCalculator (preferred product kept by name;
target pH and product properties are derived on use). -/
structure LimeCalc where
  soil_ph : ℚ
  buffer_ph : Option ℚ
  soil_texture : String
  soil_type : String
  depth_cm : ℤ
  preferred_product : String
deriving DecidableEq, Repr

/-- The `for (low, high), amount in SMP_LIME_TABLE.items()` loop of
calculate_buffer_ph_method, unrolled in dict insertion order (the ranges are
disjoint, so the first `low <= buffer_ph < high` match is the only one);
0 when no range matches. -/
def smpLookup (b : ℚ) : ℚ :=
  if 6.8 ≤ b ∧ b < 7.0 then 0.5
  else if 6.6 ≤ b ∧ b < 6.8 then 1.0
  else if 6.4 ≤ b ∧ b < 6.6 then 1.5
  else if 6.2 ≤ b ∧ b < 6.4 then 2.0
  else if 6.0 ≤ b ∧ b < 6.2 then 2.5
  else if 5.8 ≤ b ∧ b < 6.0 then 3.0
  else if 5.6 ≤ b ∧ b < 5.8 then 3.5
  else if 5.4 ≤ b ∧ b < 5.6 then 4.0
  else if 5.2 ≤ b ∧ b < 5.4 then 4.5
  else if 5.0 ≤ b ∧ b < 5.2 then 5.0
  else if 4.8 ≤ b ∧ b < 5.0 then 5.5
  else if 4.6 ≤ b ∧ b < 4.8 then 6.0
  else if 4.4 ≤ b ∧ b < 4.6 then 6.5
  else if 4.2 ≤ b ∧ b < 4.4 then 7.0
  else if 4.0 ≤ b ∧ b < 4.2 then 7.5
  else 0

/-- The base lime dose of the buffer-pH path: the SMP table lookup followed by
the `if base_lime == 0 and buffer_ph < 4.0: base_lime = 8.0` clamp. -/
def smpBaseLime (b : ℚ) : ℚ :=
  let base := smpLookup b
  if base = 0 ∧ b < 4.0 then 8.0 else base

/-- LimeCalculator.calculate_buffer_ph_method.  The missing-buffer-pH
ValueError is Except.error; the result drops only Kannada display text. -/
def calculateBufferPhMethod (c : LimeCalc) : Except String LimeResult :=
  let target := targetPh c.soil_type
  let product := limeProduct c.preferred_product
  if c.soil_ph ≥ target then
    Except.ok
      { needs_lime := false
        lime_required_t_ha := 0
        product_amount_t_ha := 0
        product_type := product.1
        bags_per_acre := 0
        target_ph := target
        current_ph := c.soil_ph
        method_used := "buffer_ph"
        confidence := "high"
        warnings := [.noLimeNeeded] }
  else
    match c.buffer_ph with
    | none => Except.error "Buffer pH required for this method."
    | some bph =>
      let base0 := smpLookup bph
      let clamp := if base0 = 0 ∧ bph < 4.0 then ((8.0 : ℚ), [LimeWarning.veryAcidSoil])
                   else (base0, [])
      let base_lime := clamp.1
      let texture_adj := textureFactor c.soil_texture
      let depth_adj := depthFactor c.depth_cm
      let lime_caco3 := base_lime * texture_adj * depth_adj
      let product_lime := lime_caco3 * (100 / product.2)
      let bags_per_acre := pyInt ((product_lime * 0.4 * 1000) / 50)
      Except.ok
        { needs_lime := true
          lime_required_t_ha := round2 lime_caco3
          product_amount_t_ha := round2 product_lime
          product_type := product.1
          bags_per_acre := bags_per_acre
          target_ph := target
          current_ph := c.soil_ph
          method_used := "buffer_ph"
          confidence := "high"
          warnings := clamp.2 ++ (if lime_caco3 > 4 then [.splitApplication] else []) }

/-- LimeCalculator.calculate_empirical_method (never raises). -/
def calculateEmpiricalMethod (c : LimeCalc) : LimeResult :=
  let target := targetPh c.soil_type
  let product := limeProduct c.preferred_product
  if c.soil_ph ≥ target then
    { needs_lime := false
      lime_required_t_ha := 0
      product_amount_t_ha := 0
      product_type := product.1
      bags_per_acre := 0
      target_ph := target
      current_ph := c.soil_ph
      method_used := "empirical"
      confidence := "medium"
      warnings := [.noLimeNeeded] }
  else
    let ph_deficit := target - c.soil_ph
    let factor : ℚ :=
      if c.soil_texture = "clay" ∨ c.soil_texture = "clay_loam" then 1.5
      else if c.soil_texture = "loam" ∨ c.soil_texture = "silt_loam" then 1.0
      else 0.7
    let base_lime := ph_deficit * factor * depthFactor c.depth_cm
    let product_lime := base_lime * (100 / product.2)
    let bags_per_acre := pyInt ((product_lime * 0.4 * 1000) / 50)
    { needs_lime := true
      lime_required_t_ha := round2 base_lime
      product_amount_t_ha := round2 product_lime
      product_type := product.1
      bags_per_acre := bags_per_acre
      target_ph := target
      current_ph := c.soil_ph
      method_used := "empirical"
      confidence := "medium"
      warnings := [.doBufferTest] }

/-- LimeCalculator.calculate: buffer-pH method when a buffer pH is available,
empirical method otherwise. -/
def limeCalculate (c : LimeCalc) : Except String LimeResult :=
  if c.buffer_ph.isSome then calculateBufferPhMethod c
  else Except.ok (calculateEmpiricalMethod c)

/-- calculate_lime convenience wrapper. -/
def calculateLime (soil_ph : ℚ) (buffer_ph : Option ℚ) (soil_texture : String)
    (soil_type : String) (depth_cm : ℤ) (product : String) :
    Except String LimeResult :=
  limeCalculate ⟨soil_ph, buffer_ph, soil_texture, soil_type, depth_cm, product⟩

/-! ## GPS resolver (src/app/core/gps_resolver.py)

The taluk bounding boxes and per-taluk base profiles are reference data
loaded from flat files at startup; the embedding takes them as parameters. -/

/-- One row of taluk_bounds_lookup.csv. -/
structure TalukBound where
  taluk : String
  min_lat : ℚ
  max_lat : ℚ
  min_lon : ℚ
  max_lon : ℚ
deriving DecidableEq, Repr

/-- A per-taluk base profile record.  The n/p/k classes are the three-valued
status domain of the reference data; the field-level `.get(key, default)`
defaults of get_profile are folded into the record being total, and a taluk
with no record at all is handled by `defaultBaseProfile` below. -/
structure BaseProfile where
  nitrogen_class : Status
  phosphorus_class : Status
  potassium_class : Status
  ph_class : String
  soil_texture_class : String
deriving DecidableEq, Repr

/-- The field defaults of get_profile applied to an empty profile dict:
medium/medium/medium, acidic, lateritic. -/
def defaultBaseProfile : BaseProfile :=
  ⟨.medium, .medium, .medium, "acidic", "lateritic"⟩

/-- GPSResolver.resolve_taluk: first bounding box containing the point, else
the "Udupi" fallback. -/
def resolveTaluk (bounds : List TalukBound) (lat lon : ℚ) : String :=
  match bounds.find? (fun b =>
      decide (b.min_lat ≤ lat ∧ lat ≤ b.max_lat ∧
              b.min_lon ≤ lon ∧ lon ≤ b.max_lon)) with
  | some b => b.taluk
  | none => "Udupi"

/-- GPSResolver.get_agro_zone. -/
def getAgroZone (lon : ℚ) : String :=
  if lon < 74.75 then "coastal"
  else if lon > 74.95 then "ghats"
  else "midland"

/-- The RIVERS segment list of GPSResolver.is_lowland,
(lat1, lon1, lat2, lon2). -/
def RIVERS : List (ℚ × ℚ × ℚ × ℚ) :=
  [(13.40, 74.70, 13.35, 74.80),
   (13.45, 74.75, 13.42, 74.70),
   (13.25, 74.75, 13.28, 74.78),
   (13.60, 74.65, 13.65, 74.70)]

/-- dist_sq of is_lowland. -/
def distSq (x1 y1 x2 y2 : ℚ) : ℚ := (x1 - x2) ^ 2 + (y1 - y2) ^ 2

/-- Squared distance from the point to one (possibly degenerate) river
segment: the clamped-projection computation inside the is_lowland loop. -/
def segDistSq (lat lon : ℚ) (r : ℚ × ℚ × ℚ × ℚ) : ℚ :=
  let vx := r.1
  let vy := r.2.1
  let wx := r.2.2.1
  let wy := r.2.2.2
  let l2 := distSq vx vy wx wy
  if l2 = 0 then distSq lat lon vx vy
  else
    let t := ((lat - vx) * (wx - vx) + (lon - vy) * (wy - vy)) / l2
    let tc := max 0 (min 1 t)
    let proj_x := vx + tc * (wx - vx)
    let proj_y := vy + tc * (wy - vy)
    distSq lat lon proj_x proj_y

/-- GPSResolver.is_lowland: any river segment within the squared 0.015-degree
threshold. -/
def isLowland (lat lon : ℚ) : Bool :=
  RIVERS.any (fun r => decide (segDistSq lat lon r < 0.015 ^ 2))

/-- The refined profile returned by GPSResolver.get_profile. -/
structure ResolvedProfile where
  taluk : String
  zone : String
  topography : String
  n : Status
  p : Status
  k : Status
  ph_class : String
  texture : String
deriving DecidableEq, Repr

/-- GPSResolver.get_profile: taluk resolution, base-profile lookup with the
Udupi/default fallbacks, then the agro-climatic-zone and topography override
cascade.  The source mutates texture/ph/n in exclusive zone branches; the
zone rule here computes the same (texture, ph_class, n) triple in one match
on the zone value. -/
def getProfile (bounds : List TalukBound)
    (profiles : String → Option BaseProfile) (lat lon : ℚ)
    (land_type_override : Option String) : ResolvedProfile :=
  let taluk0 := resolveTaluk bounds lat lon
  let taluk := if taluk0 = "" then "Udupi" else taluk0
  let base :=
    match profiles taluk with
    | some p => p
    | none => (profiles "Udupi").getD defaultBaseProfile
  let zone := getAgroZone lon
  let is_lowland :=
    match land_type_override with
    | some s => pyLower s == "lowland"
    | none => isLowland lat lon
  let topo_type := if is_lowland then "Lowland" else "Upland"
  let n := base.nitrogen_class
  let p := base.phosphorus_class
  let k := base.potassium_class
  let ph_class := base.ph_class
  let texture := base.soil_texture_class
  let zoned :=
    if zone = "coastal" then
      ((if lon < 74.70 then "sandy" else texture), "neutral", n)
    else if zone = "ghats" then
      ("clay_loam", "acidic", Status.high)
    else if zone = "midland" then
      ((if texture = "sandy" ∨ texture = "sandy_loam" then "lateritic"
        else texture), "acidic", n)
    else (texture, ph_class, n)
  let texture1 := zoned.1
  let ph_class1 := zoned.2.1
  let n1 := zoned.2.2
  let texture2 :=
    if is_lowland then (if texture1 = "lateritic" then "clay_loam" else texture1)
    else texture1
  let n2 :=
    if is_lowland then (if n1 = Status.low then Status.medium else n1) else n1
  ⟨taluk, zone, topo_type, n2, p, k, ph_class1, texture2⟩

/-! ## Farmer view (src/app/core/farmer_view.py) -/

/-- BAG_SIZES.get(product, 50). -/
def bagSize (product : String) : ℤ :=
  match product with
  | "urea" => 45
  | "dap" => 50
  | "mop" => 50
  | "ssp" => 50
  | "zinc_sulfate" => 10
  | "borax" => 1
  | "dolomite" => 50
  | "gypsum" => 50
  | "magnesium_sulfate" => 25
  | _ => 50

/-- ShoppingItem without the bilingual display names. -/
structure ShoppingItem where
  product_name : String
  total_kg : ℚ
  bags : ℤ
  loose_kg : ℚ
  bag_size : ℤ
deriving DecidableEq, Repr

/-- convert_to_bags (farmer_view.py lines 233-257).  `int(kg_amount //
bag_size)` is the floor of the quotient for these magnitudes. -/
def convertToBags (product : String) (kg_amount0 : ℚ) : ShoppingItem :=
  let bag_size := bagSize (pyLower product)
  let kg_amount := round1 kg_amount0
  let bags := ⌊kg_amount / (bag_size : ℚ)⌋
  let loose := round1 (pyMod kg_amount (bag_size : ℚ))
  if loose > (bag_size : ℚ) * 0.95 then
    ⟨product, kg_amount, bags + 1, 0, bag_size⟩
  else
    ⟨product, kg_amount, bags, loose, bag_size⟩

/-- One MANURE_NUTRIENTS row. -/
structure ManureData where
  n_pct : ℚ
  p_pct : ℚ
  k_pct : ℚ
  availability : ℚ
deriving DecidableEq, Repr

/-- MANURE_NUTRIENTS. -/
def MANURE_NUTRIENTS : String → Option ManureData
  | "fym" => some ⟨0.5, 0.25, 0.5, 0.3⟩
  | "vermicompost" => some ⟨1.5, 1.0, 1.5, 0.4⟩
  | "poultry" => some ⟨3.0, 2.5, 1.5, 0.5⟩
  | _ => none

/-- calculate_manure_credit: effective (n, p, k) credit in kg. -/
def calculateManureCredit (manure_type : String) (quantity_tons : ℚ) :
    ℚ × ℚ × ℚ :=
  match MANURE_NUTRIENTS manure_type with
  | none => (0, 0, 0)
  | some d =>
    let kg_total := quantity_tons * 1000
    (kg_total * (d.n_pct / 100) * d.availability,
     kg_total * (d.p_pct / 100) * d.availability,
     kg_total * (d.k_pct / 100) * d.availability)

/-- The quantitative core of simplify_advisory: per-acre conversion, the
manure credit with its per-product floor at zero, and the shopping list built
from the post-credit masses.  Dates, warnings and other bilingual
presentation fields are omitted; `manure_type and manure_tons > 0` truthiness
is modelled by the Option (an absent or empty manure type is none). -/
structure AdvisoryCore where
  net_urea_acre : ℚ
  net_dap_acre : ℚ
  net_mop_acre : ℚ
  shopping : List ShoppingItem
deriving DecidableEq, Repr

/-- simplify_advisory (farmer_view.py lines 352-417), quantitative slice. -/
def simplifyAdvisory (urea_kg dap_kg mop_kg zinc_kg lime_t_ha : ℚ)
    (manure_type : Option String) (manure_tons : ℚ) : AdvisoryCore :=
  let acre_factor : ℚ := 2.5
  let urea_acre := urea_kg / acre_factor
  let dap_acre := dap_kg / acre_factor
  let mop_acre := mop_kg / acre_factor
  let zinc_acre := zinc_kg / acre_factor
  let lime_tons_acre := lime_t_ha / acre_factor
  let nets :=
    match manure_type with
    | some mt =>
      if manure_tons > 0 then
        let credits := calculateManureCredit mt manure_tons
        (max 0 (urea_acre - credits.1 / 0.46),
         max 0 (dap_acre - credits.2.1 / 0.46),
         max 0 (mop_acre - credits.2.2 / 0.60))
      else (urea_acre, dap_acre, mop_acre)
    | none => (urea_acre, dap_acre, mop_acre)
  let shopping :=
    (if lime_tons_acre > 0.1 then
        [convertToBags "dolomite" (lime_tons_acre * 1000)]
      else [])
    ++ [convertToBags "urea" nets.1, convertToBags "dap" nets.2.1,
        convertToBags "mop" nets.2.2]
    ++ (if zinc_acre > 2 then [convertToBags "zinc_sulfate" zinc_acre] else [])
  ⟨nets.1, nets.2.1, nets.2.2, shopping⟩

/-! ## Request layer (src/app/api_logic.py) -/

/-- _get_status: non-numeric values fall back to "medium"; otherwise fixed
low/high breakpoints per nutrient. -/
def getStatus (v : PyVal) (nutrient : String) : Status :=
  match pyFloat v with
  | none => .medium
  | some val =>
    if nutrient = "n" then
      (if val < 280 then .low else if val > 560 then .high else .medium)
    else if nutrient = "p" then
      (if val < 22 then .low else if val > 55 then .high else .medium)
    else if nutrient = "k" then
      (if val < 140 then .low else if val > 330 then .high else .medium)
    else .medium

/-- The request fields process_request reads for mode dispatch and the
scientific models.  Fields that only feed bilingual presentation
(sowing_date, area_acres, rain_forecast_mm) are omitted. -/
structure Request where
  crop : Option String
  ph : Option PyVal
  nitrogen_kg_ha : Option PyVal
  phosphorus_kg_ha : Option PyVal
  potassium_kg_ha : Option PyVal
  texture : Option String
  zinc_ppm : Option PyVal
  lat : Option PyVal
  lon : Option PyVal
  land_type : Option String
  manure_type : Option String
  manure_loads : Option PyVal
deriving DecidableEq, Repr

/-- The advisory payload shapes process_request can return to its caller: a
success response (carrying the embedded model results) or a structured
`{"error": ...}` payload.  An uncaught Python exception escaping
process_request is Except.error, not a Response. -/
inductive Response
  | success (stcr : STCRResult) (lime : LimeResult) (advisory : AdvisoryCore)
  | errPayload (msg : String)
deriving DecidableEq, Repr

/-- Steps 3-6 of process_request (shared by both modes): lime model with the
fixed buffer pH 6.0, the fixed per-crop target yield, the STCR model (whose
unknown-crop ValueError propagates uncaught), manure parsing with the bare
except defaulting to 0, and the farmer advisory. -/
def runModels (crop : String) (ph : ℚ) (n p k : Status) (soil_type : String)
    (zinc_val : ℚ) (req : Request) : Except String Response :=
  match calculateLime ph (some 6.0) soil_type "lateritic" 15 "dolomite" with
  | .error e => Except.error e
  | .ok lime_result =>
    let target_yield : ℚ := if pyLower crop = "paddy" then 5.0 else 2.5
    match calculateFertilizer crop target_yield n p k soil_type "fallow" with
    | .error e => Except.error e
    | .ok stcr =>
      let manure_loads : ℚ :=
        match req.manure_loads with
        | none => 0
        | some v => (pyFloat v).getD 0
      let manure_tons := manure_loads * 3
      let advisory := simplifyAdvisory stcr.urea_kg stcr.dap_kg stcr.mop_kg
        (if zinc_val < 0.6 then 25 else 0) lime_result.lime_required_t_ha
        req.manure_type manure_tons
      Except.ok (.success stcr lime_result advisory)

/-- process_request (api_logic.py lines 109-316).  Mode dispatch:
precision (lab) mode when both "ph" and "nitrogen_kg_ha" are present, GPS
mode when both coordinates are present, else the missing-data error payload.
ValueError from float() inside the mode try-blocks becomes a structured
error payload; a KeyError on a missing phosphorus/potassium field and the
unknown-crop ValueError are not caught by those handlers and escape as
Except.error. -/
def processRequest (bounds : List TalukBound)
    (profiles : String → Option BaseProfile) (req : Request) :
    Except String Response :=
  let crop := req.crop.getD "Paddy"
  match req.ph, req.nitrogen_kg_ha with
  | some phv, some nv =>
    (match pyFloat phv with
     | none => Except.ok (.errPayload "Invalid numeric values in Soil Data")
     | some ph =>
       let n_status := getStatus nv "n"
       match req.phosphorus_kg_ha with
       | none => Except.error "KeyError: phosphorus_kg_ha"
       | some pv =>
         match req.potassium_kg_ha with
         | none => Except.error "KeyError: potassium_kg_ha"
         | some kv =>
           let p_status := getStatus pv "p"
           let k_status := getStatus kv "k"
           let soil_type := req.texture.getD "lateritic"
           match pyFloat (req.zinc_ppm.getD (.num 0.5)) with
           | none => Except.ok (.errPayload "Invalid numeric values in Soil Data")
           | some zinc_val =>
             runModels crop ph n_status p_status k_status soil_type zinc_val req)
  | _, _ =>
    match req.lat, req.lon with
    | some latv, some lonv =>
      (match pyFloat latv, pyFloat lonv with
       | some lat, some lon =>
         let profile := getProfile bounds profiles lat lon req.land_type
         let ph : ℚ := if profile.ph_class = "acidic" then 5.5 else 6.5
         runModels crop ph profile.n profile.p profile.k profile.texture 0.5 req
       | _, _ => Except.ok (.errPayload "Invalid Latitude/Longitude"))
    | _, _ => Except.ok (.errPayload "Missing Soil Data or GPS Coordinates")

/-! ## Observers used by the theorem statements -/

/-- Stage names of a split schedule, in order. -/
def splitStages : SplitSchedule → List String
  | .masses l => l.map SplitStage.stage
  | .percents l => l.map PctStage.stage

/-- Total urea mass over a mass-valued split schedule. -/
def splitUreaSum : SplitSchedule → ℚ
  | .masses l => (l.map SplitStage.urea_kg).sum
  | .percents _ => 0

/-- Total DAP mass over a mass-valued split schedule. -/
def splitDapSum : SplitSchedule → ℚ
  | .masses l => (l.map SplitStage.dap_kg).sum
  | .percents _ => 0

/-- Total MOP mass over a mass-valued split schedule. -/
def splitMopSum : SplitSchedule → ℚ
  | .masses l => (l.map SplitStage.mop_kg).sum
  | .percents _ => 0

/-- The base regional profile get_profile starts from: the resolved taluk
(with the empty-name fallback), its profile record, falling back to the
Udupi record and then to the all-defaults record. -/
def baseProfileAt (bounds : List TalukBound)
    (profiles : String → Option BaseProfile) (lat lon : ℚ) : BaseProfile :=
  let taluk0 := resolveTaluk bounds lat lon
  let taluk := if taluk0 = "" then "Udupi" else taluk0
  match profiles taluk with
  | some p => p
  | none => (profiles "Udupi").getD defaultBaseProfile

/-! ## Claims -/

/-- Helper: str.lower() is the identity on the lowercase crop names used in
the theorems below. -/
theorem pyLower_paddy : pyLower "paddy" = "paddy" := by decide

/-- C6 counterexample: the claim says a longitude exactly on the upper
breakpoint (74.95) maps to ghats, but get_agro_zone uses a strict
`lon > 74.95` comparison, so 74.95 falls into the midland band. -/
theorem C6_boundary_counterexample :
    getAgroZone 74.95 = "midland" ∧ getAgroZone 74.95 ≠ "ghats" := by
  norm_num [getAgroZone]
  decide

/-- C6 (amended): get_agro_zone is the two-breakpoint step function of
longitude with coastal strictly below 74.75 and ghats strictly above 74.95;
both breakpoints themselves belong to the midland band (74.75 because the
lower comparison is strict `<`, 74.95 because the upper comparison is strict
`>`). -/
theorem C6_agro_zone_bands (lon : ℚ) :
    (lon < 74.75 → getAgroZone lon = "coastal") ∧
    (74.95 < lon → getAgroZone lon = "ghats") ∧
    (74.75 ≤ lon → lon ≤ 74.95 → getAgroZone lon = "midland") := by
  refine ⟨fun h => ?_, fun h => ?_, fun h1 h2 => ?_⟩ <;>
    simp only [getAgroZone] <;> split_ifs <;> first | rfl | linarith

/-- C6 witness: the lower breakpoint itself resolves to midland. -/
theorem C6_agro_zone_bands_witness :
    (74.75 : ℚ) ≤ 74.75 ∧ (74.75 : ℚ) ≤ 74.95 ∧
    getAgroZone 74.75 = "midland" :=
  ⟨by norm_num, by norm_num,
    (C6_agro_zone_bands 74.75).2.2 (by norm_num) (by norm_num)⟩

/-- C7: the refinement cascade never touches the potassium class: for every
bounds table, profile table, coordinate and override, the resolved K class
equals the base regional profile's K class (the Lowland rule promotes texture
and a low N class but, per the expert audit, deliberately not K). -/
theorem C7_k_class_preserved (bounds : List TalukBound)
    (profiles : String → Option BaseProfile) (lat lon : ℚ)
    (ov : Option String) :
    (getProfile bounds profiles lat lon ov).k =
      (baseProfileAt bounds profiles lat lon).potassium_class := rfl

/-- C10: for the fixed-dose (perennial) crops arecanut, coconut and pepper,
calculate reads neither soil_type nor previous_crop: two calls differing only
in those inputs return identical results, and the result always reports a
zero N credit, a zero P-fixation factor and no warnings. -/
theorem C10_fixed_dose_ignores_soil_type (y : ℚ) (sn sp sk : Status)
    (st1 st2 pc1 pc2 : String) :
    (calculateFertilizer "arecanut" y sn sp sk st1 pc1 =
        calculateFertilizer "arecanut" y sn sp sk st2 pc2 ∧
      ∃ r, calculateFertilizer "arecanut" y sn sp sk st1 pc1 = Except.ok r ∧
        r.n_credit = 0 ∧ r.p_fixation_factor = 0 ∧ r.warnings = []) ∧
    (calculateFertilizer "coconut" y sn sp sk st1 pc1 =
        calculateFertilizer "coconut" y sn sp sk st2 pc2 ∧
      ∃ r, calculateFertilizer "coconut" y sn sp sk st1 pc1 = Except.ok r ∧
        r.n_credit = 0 ∧ r.p_fixation_factor = 0 ∧ r.warnings = []) ∧
    (calculateFertilizer "pepper" y sn sp sk st1 pc1 =
        calculateFertilizer "pepper" y sn sp sk st2 pc2 ∧
      ∃ r, calculateFertilizer "pepper" y sn sp sk st1 pc1 = Except.ok r ∧
        r.n_credit = 0 ∧ r.p_fixation_factor = 0 ∧ r.warnings = []) :=
  ⟨⟨rfl, ⟨_, rfl, rfl, rfl, rfl⟩⟩, ⟨rfl, ⟨_, rfl, rfl, rfl, rfl⟩⟩,
   ⟨rfl, ⟨_, rfl, rfl, rfl, rfl⟩⟩⟩

/-- C2 counterexample: with current pH 7 ≥ target pH 6 and no buffer pH,
calculate() dispatches to the empirical method, whose short-circuit result
carries confidence "medium", not the claimed "high". -/
theorem C2_confidence_counterexample :
    (limeCalculate ⟨7, none, "loam", "lateritic", 15, "dolomite"⟩).toOption.map
        (fun r => (r.needs_lime, r.lime_required_t_ha, r.confidence)) =
      some (false, 0, "medium") ∧
    (limeCalculate ⟨7, none, "loam", "lateritic", 15, "dolomite"⟩).toOption.map
        (fun r => r.confidence) ≠ some "high" := by
  constructor <;>
    simp [limeCalculate, calculateEmpiricalMethod, targetPh, limeProduct,
      Except.toOption] <;> norm_num
  decide

/-- C2 (amended): whenever the current soil pH is at least the target pH,
calculate() short-circuits under either method with needs_lime = false, a
zero pure dose, zero product amount and zero bags; the confidence tag is
"high" only on the buffer-pH path and "medium" on the empirical path. -/
theorem C2_no_lime_short_circuit (c : LimeCalc)
    (h : c.soil_ph ≥ targetPh c.soil_type) :
    ∃ r, limeCalculate c = Except.ok r ∧ r.needs_lime = false ∧
      r.lime_required_t_ha = 0 ∧ r.product_amount_t_ha = 0 ∧
      r.bags_per_acre = 0 ∧
      r.confidence = (if c.buffer_ph.isSome then "high" else "medium") := by
  rcases hb : c.buffer_ph with _ | b <;>
    simp [limeCalculate, hb, calculateBufferPhMethod, calculateEmpiricalMethod,
      if_pos h]

/-- C2 witness: a concrete buffer-pH-mode input with pH already adequate. -/
theorem C2_no_lime_short_circuit_witness :
    (7 : ℚ) ≥ targetPh "lateritic" ∧
    (∃ r, limeCalculate ⟨7, some 6.5, "loam", "lateritic", 15, "dolomite"⟩ =
        Except.ok r ∧ r.needs_lime = false ∧
      r.lime_required_t_ha = 0 ∧ r.product_amount_t_ha = 0 ∧
      r.bags_per_acre = 0 ∧
      r.confidence =
        (if (some (6.5 : ℚ)).isSome then "high" else "medium")) :=
  ⟨by norm_num [targetPh],
    C2_no_lime_short_circuit ⟨7, some 6.5, "loam", "lateritic", 15, "dolomite"⟩
      (by norm_num [targetPh])⟩

/-- C1: the paddy / 5 t/ha / low-medium-medium / lateritic / fallow scenario
reproduces the golden reference computation: zero N credit, P-fixation factor
0.55, N/P/K requirements 154 / 120 / 104.2 kg/ha, urea 232.7 kg, DAP 260.9 kg
and MOP 173.6 kg, with the 3-stage basal/tillering/panicle split whose
per-stage DAP and MOP masses sum exactly to the totals and whose urea masses
sum to the total within per-stage rounding (3 half-ticks of 0.05 kg). -/
theorem C1_paddy_golden_scenario :
    ∃ r, calculateFertilizer "paddy" 5 .low .medium .medium "lateritic"
        "fallow" = Except.ok r ∧
      r.n_credit = 0 ∧ r.p_fixation_factor = 0.55 ∧
      r.n_required = 154 ∧ r.p_required = 120 ∧ r.k_required = 104.2 ∧
      r.urea_kg = 232.7 ∧ r.dap_kg = 260.9 ∧ r.mop_kg = 173.6 ∧
      splitStages r.splits = ["basal", "tillering", "panicle"] ∧
      |splitUreaSum r.splits - r.urea_kg| ≤ 0.15 ∧
      splitDapSum r.splits = r.dap_kg ∧ splitMopSum r.splits = r.mop_kg := by
  norm_num [calculateFertilizer, calculateYieldTarget, getSplits, round1,
    pyLower_paddy, CROP_NUTRIENT_UPTAKE, soilContributionN, soilContributionP,
    soilContributionK, pFixationFactor, previousCropCredit, max_def,
    splitStages, splitUreaSum, splitDapSum, splitMopSum]
  rw [abs_le]
  norm_num

/-- C8 counterexample: for a buffer pH below the lowest tabulated range
(3.9 < 4.0) the base dose becomes the fixed 8.0 t/ha, but the table's
maximum dose — the value of its lowest range [4.0, 4.2), the largest value
in SMP_LIME_TABLE — is 7.5 t/ha, so the below-range dose is not a clamp to
the table's maximum. -/
theorem C8_below_range_counterexample :
    smpBaseLime 3.9 = 8 ∧ smpLookup 4.1 = 7.5 ∧ (8 : ℚ) ≠ 7.5 := by
  norm_num [smpBaseLime, smpLookup]

/-- C8 (amended): the base lime dose of the buffer-pH path is the SMP-table
lookup over half-open ranges [low, high), each mapping to one fixed t/ha
value; a buffer pH below the lowest range gets the fixed 8.0 t/ha dose
(0.5 above the table maximum of 7.5), and a buffer pH at or above the top of
the table gets 0. -/
theorem C8_smp_table_semantics (b : ℚ) :
    (6.8 ≤ b → b < 7.0 → smpBaseLime b = 0.5) ∧
    (6.6 ≤ b → b < 6.8 → smpBaseLime b = 1.0) ∧
    (6.4 ≤ b → b < 6.6 → smpBaseLime b = 1.5) ∧
    (6.2 ≤ b → b < 6.4 → smpBaseLime b = 2.0) ∧
    (6.0 ≤ b → b < 6.2 → smpBaseLime b = 2.5) ∧
    (5.8 ≤ b → b < 6.0 → smpBaseLime b = 3.0) ∧
    (5.6 ≤ b → b < 5.8 → smpBaseLime b = 3.5) ∧
    (5.4 ≤ b → b < 5.6 → smpBaseLime b = 4.0) ∧
    (5.2 ≤ b → b < 5.4 → smpBaseLime b = 4.5) ∧
    (5.0 ≤ b → b < 5.2 → smpBaseLime b = 5.0) ∧
    (4.8 ≤ b → b < 5.0 → smpBaseLime b = 5.5) ∧
    (4.6 ≤ b → b < 4.8 → smpBaseLime b = 6.0) ∧
    (4.4 ≤ b → b < 4.6 → smpBaseLime b = 6.5) ∧
    (4.2 ≤ b → b < 4.4 → smpBaseLime b = 7.0) ∧
    (4.0 ≤ b → b < 4.2 → smpBaseLime b = 7.5) ∧
    (b < 4.0 → smpBaseLime b = 8.0) ∧
    (7.0 ≤ b → smpBaseLime b = 0) := by
  refine ⟨?_, ?_, ?_, ?_, ?_, ?_, ?_, ?_, ?_, ?_, ?_, ?_, ?_, ?_, ?_, ?_, ?_⟩
  · intro h1 h2
    have e : smpLookup b = 0.5 := by
      simp only [smpLookup]
      rw [if_pos ⟨h1, h2⟩]
    simp only [smpBaseLime, e]
    rw [if_neg (by rintro ⟨c1, c2⟩; norm_num at c1)]
  · intro h1 h2
    have e : smpLookup b = 1.0 := by
      simp only [smpLookup]
      rw [if_neg (by rintro ⟨c1, c2⟩; linarith)]
      rw [if_pos ⟨h1, h2⟩]
    simp only [smpBaseLime, e]
    rw [if_neg (by rintro ⟨c1, c2⟩; norm_num at c1)]
  · intro h1 h2
    have e : smpLookup b = 1.5 := by
      simp only [smpLookup]
      rw [if_neg (by rintro ⟨c1, c2⟩; linarith)]
      rw [if_neg (by rintro ⟨c1, c2⟩; linarith)]
      rw [if_pos ⟨h1, h2⟩]
    simp only [smpBaseLime, e]
    rw [if_neg (by rintro ⟨c1, c2⟩; norm_num at c1)]
  · intro h1 h2
    have e : smpLookup b = 2.0 := by
      simp only [smpLookup]
      rw [if_neg (by rintro ⟨c1, c2⟩; linarith)]
      rw [if_neg (by rintro ⟨c1, c2⟩; linarith)]
      rw [if_neg (by rintro ⟨c1, c2⟩; linarith)]
      rw [if_pos ⟨h1, h2⟩]
    simp only [smpBaseLime, e]
    rw [if_neg (by rintro ⟨c1, c2⟩; norm_num at c1)]
  · intro h1 h2
    have e : smpLookup b = 2.5 := by
      simp only [smpLookup]
      rw [if_neg (by rintro ⟨c1, c2⟩; linarith)]
      rw [if_neg (by rintro ⟨c1, c2⟩; linarith)]
      rw [if_neg (by rintro ⟨c1, c2⟩; linarith)]
      rw [if_neg (by rintro ⟨c1, c2⟩; linarith)]
      rw [if_pos ⟨h1, h2⟩]
    simp only [smpBaseLime, e]
    rw [if_neg (by rintro ⟨c1, c2⟩; norm_num at c1)]
  · intro h1 h2
    have e : smpLookup b = 3.0 := by
      simp only [smpLookup]
      rw [if_neg (by rintro ⟨c1, c2⟩; linarith)]
      rw [if_neg (by rintro ⟨c1, c2⟩; linarith)]
      rw [if_neg (by rintro ⟨c1, c2⟩; linarith)]
      rw [if_neg (by rintro ⟨c1, c2⟩; linarith)]
      rw [if_neg (by rintro ⟨c1, c2⟩; linarith)]
      rw [if_pos ⟨h1, h2⟩]
    simp only [smpBaseLime, e]
    rw [if_neg (by rintro ⟨c1, c2⟩; norm_num at c1)]
  · intro h1 h2
    have e : smpLookup b = 3.5 := by
      simp only [smpLookup]
      rw [if_neg (by rintro ⟨c1, c2⟩; linarith)]
      rw [if_neg (by rintro ⟨c1, c2⟩; linarith)]
      rw [if_neg (by rintro ⟨c1, c2⟩; linarith)]
      rw [if_neg (by rintro ⟨c1, c2⟩; linarith)]
      rw [if_neg (by rintro ⟨c1, c2⟩; linarith)]
      rw [if_neg (by rintro ⟨c1, c2⟩; linarith)]
      rw [if_pos ⟨h1, h2⟩]
    simp only [smpBaseLime, e]
    rw [if_neg (by rintro ⟨c1, c2⟩; norm_num at c1)]
  · intro h1 h2
    have e : smpLookup b = 4.0 := by
      simp only [smpLookup]
      rw [if_neg (by rintro ⟨c1, c2⟩; linarith)]
      rw [if_neg (by rintro ⟨c1, c2⟩; linarith)]
      rw [if_neg (by rintro ⟨c1, c2⟩; linarith)]
      rw [if_neg (by rintro ⟨c1, c2⟩; linarith)]
      rw [if_neg (by rintro ⟨c1, c2⟩; linarith)]
      rw [if_neg (by rintro ⟨c1, c2⟩; linarith)]
      rw [if_neg (by rintro ⟨c1, c2⟩; linarith)]
      rw [if_pos ⟨h1, h2⟩]
    simp only [smpBaseLime, e]
    rw [if_neg (by rintro ⟨c1, c2⟩; norm_num at c1)]
  · intro h1 h2
    have e : smpLookup b = 4.5 := by
      simp only [smpLookup]
      rw [if_neg (by rintro ⟨c1, c2⟩; linarith)]
      rw [if_neg (by rintro ⟨c1, c2⟩; linarith)]
      rw [if_neg (by rintro ⟨c1, c2⟩; linarith)]
      rw [if_neg (by rintro ⟨c1, c2⟩; linarith)]
      rw [if_neg (by rintro ⟨c1, c2⟩; linarith)]
      rw [if_neg (by rintro ⟨c1, c2⟩; linarith)]
      rw [if_neg (by rintro ⟨c1, c2⟩; linarith)]
      rw [if_neg (by rintro ⟨c1, c2⟩; linarith)]
      rw [if_pos ⟨h1, h2⟩]
    simp only [smpBaseLime, e]
    rw [if_neg (by rintro ⟨c1, c2⟩; norm_num at c1)]
  · intro h1 h2
    have e : smpLookup b = 5.0 := by
      simp only [smpLookup]
      rw [if_neg (by rintro ⟨c1, c2⟩; linarith)]
      rw [if_neg (by rintro ⟨c1, c2⟩; linarith)]
      rw [if_neg (by rintro ⟨c1, c2⟩; linarith)]
      rw [if_neg (by rintro ⟨c1, c2⟩; linarith)]
      rw [if_neg (by rintro ⟨c1, c2⟩; linarith)]
      rw [if_neg (by rintro ⟨c1, c2⟩; linarith)]
      rw [if_neg (by rintro ⟨c1, c2⟩; linarith)]
      rw [if_neg (by rintro ⟨c1, c2⟩; linarith)]
      rw [if_neg (by rintro ⟨c1, c2⟩; linarith)]
      rw [if_pos ⟨h1, h2⟩]
    simp only [smpBaseLime, e]
    rw [if_neg (by rintro ⟨c1, c2⟩; norm_num at c1)]
  · intro h1 h2
    have e : smpLookup b = 5.5 := by
      simp only [smpLookup]
      rw [if_neg (by rintro ⟨c1, c2⟩; linarith)]
      rw [if_neg (by rintro ⟨c1, c2⟩; linarith)]
      rw [if_neg (by rintro ⟨c1, c2⟩; linarith)]
      rw [if_neg (by rintro ⟨c1, c2⟩; linarith)]
      rw [if_neg (by rintro ⟨c1, c2⟩; linarith)]
      rw [if_neg (by rintro ⟨c1, c2⟩; linarith)]
      rw [if_neg (by rintro ⟨c1, c2⟩; linarith)]
      rw [if_neg (by rintro ⟨c1, c2⟩; linarith)]
      rw [if_neg (by rintro ⟨c1, c2⟩; linarith)]
      rw [if_neg (by rintro ⟨c1, c2⟩; linarith)]
      rw [if_pos ⟨h1, h2⟩]
    simp only [smpBaseLime, e]
    rw [if_neg (by rintro ⟨c1, c2⟩; norm_num at c1)]
  · intro h1 h2
    have e : smpLookup b = 6.0 := by
      simp only [smpLookup]
      rw [if_neg (by rintro ⟨c1, c2⟩; linarith)]
      rw [if_neg (by rintro ⟨c1, c2⟩; linarith)]
      rw [if_neg (by rintro ⟨c1, c2⟩; linarith)]
      rw [if_neg (by rintro ⟨c1, c2⟩; linarith)]
      rw [if_neg (by rintro ⟨c1, c2⟩; linarith)]
      rw [if_neg (by rintro ⟨c1, c2⟩; linarith)]
      rw [if_neg (by rintro ⟨c1, c2⟩; linarith)]
      rw [if_neg (by rintro ⟨c1, c2⟩; linarith)]
      rw [if_neg (by rintro ⟨c1, c2⟩; linarith)]
      rw [if_neg (by rintro ⟨c1, c2⟩; linarith)]
      rw [if_neg (by rintro ⟨c1, c2⟩; linarith)]
      rw [if_pos ⟨h1, h2⟩]
    simp only [smpBaseLime, e]
    rw [if_neg (by rintro ⟨c1, c2⟩; norm_num at c1)]
  · intro h1 h2
    have e : smpLookup b = 6.5 := by
      simp only [smpLookup]
      rw [if_neg (by rintro ⟨c1, c2⟩; linarith)]
      rw [if_neg (by rintro ⟨c1, c2⟩; linarith)]
      rw [if_neg (by rintro ⟨c1, c2⟩; linarith)]
      rw [if_neg (by rintro ⟨c1, c2⟩; linarith)]
      rw [if_neg (by rintro ⟨c1, c2⟩; linarith)]
      rw [if_neg (by rintro ⟨c1, c2⟩; linarith)]
      rw [if_neg (by rintro ⟨c1, c2⟩; linarith)]
      rw [if_neg (by rintro ⟨c1, c2⟩; linarith)]
      rw [if_neg (by rintro ⟨c1, c2⟩; linarith)]
      rw [if_neg (by rintro ⟨c1, c2⟩; linarith)]
      rw [if_neg (by rintro ⟨c1, c2⟩; linarith)]
      rw [if_neg (by rintro ⟨c1, c2⟩; linarith)]
      rw [if_pos ⟨h1, h2⟩]
    simp only [smpBaseLime, e]
    rw [if_neg (by rintro ⟨c1, c2⟩; norm_num at c1)]
  · intro h1 h2
    have e : smpLookup b = 7.0 := by
      simp only [smpLookup]
      rw [if_neg (by rintro ⟨c1, c2⟩; linarith)]
      rw [if_neg (by rintro ⟨c1, c2⟩; linarith)]
      rw [if_neg (by rintro ⟨c1, c2⟩; linarith)]
      rw [if_neg (by rintro ⟨c1, c2⟩; linarith)]
      rw [if_neg (by rintro ⟨c1, c2⟩; linarith)]
      rw [if_neg (by rintro ⟨c1, c2⟩; linarith)]
      rw [if_neg (by rintro ⟨c1, c2⟩; linarith)]
      rw [if_neg (by rintro ⟨c1, c2⟩; linarith)]
      rw [if_neg (by rintro ⟨c1, c2⟩; linarith)]
      rw [if_neg (by rintro ⟨c1, c2⟩; linarith)]
      rw [if_neg (by rintro ⟨c1, c2⟩; linarith)]
      rw [if_neg (by rintro ⟨c1, c2⟩; linarith)]
      rw [if_neg (by rintro ⟨c1, c2⟩; linarith)]
      rw [if_pos ⟨h1, h2⟩]
    simp only [smpBaseLime, e]
    rw [if_neg (by rintro ⟨c1, c2⟩; norm_num at c1)]
  · intro h1 h2
    have e : smpLookup b = 7.5 := by
      simp only [smpLookup]
      rw [if_neg (by rintro ⟨c1, c2⟩; linarith)]
      rw [if_neg (by rintro ⟨c1, c2⟩; linarith)]
      rw [if_neg (by rintro ⟨c1, c2⟩; linarith)]
      rw [if_neg (by rintro ⟨c1, c2⟩; linarith)]
      rw [if_neg (by rintro ⟨c1, c2⟩; linarith)]
      rw [if_neg (by rintro ⟨c1, c2⟩; linarith)]
      rw [if_neg (by rintro ⟨c1, c2⟩; linarith)]
      rw [if_neg (by rintro ⟨c1, c2⟩; linarith)]
      rw [if_neg (by rintro ⟨c1, c2⟩; linarith)]
      rw [if_neg (by rintro ⟨c1, c2⟩; linarith)]
      rw [if_neg (by rintro ⟨c1, c2⟩; linarith)]
      rw [if_neg (by rintro ⟨c1, c2⟩; linarith)]
      rw [if_neg (by rintro ⟨c1, c2⟩; linarith)]
      rw [if_neg (by rintro ⟨c1, c2⟩; linarith)]
      rw [if_pos ⟨h1, h2⟩]
    simp only [smpBaseLime, e]
    rw [if_neg (by rintro ⟨c1, c2⟩; norm_num at c1)]
  · intro h1
    have e : smpLookup b = 0 := by
      simp only [smpLookup]
      rw [if_neg (by rintro ⟨c1, c2⟩; linarith)]
      rw [if_neg (by rintro ⟨c1, c2⟩; linarith)]
      rw [if_neg (by rintro ⟨c1, c2⟩; linarith)]
      rw [if_neg (by rintro ⟨c1, c2⟩; linarith)]
      rw [if_neg (by rintro ⟨c1, c2⟩; linarith)]
      rw [if_neg (by rintro ⟨c1, c2⟩; linarith)]
      rw [if_neg (by rintro ⟨c1, c2⟩; linarith)]
      rw [if_neg (by rintro ⟨c1, c2⟩; linarith)]
      rw [if_neg (by rintro ⟨c1, c2⟩; linarith)]
      rw [if_neg (by rintro ⟨c1, c2⟩; linarith)]
      rw [if_neg (by rintro ⟨c1, c2⟩; linarith)]
      rw [if_neg (by rintro ⟨c1, c2⟩; linarith)]
      rw [if_neg (by rintro ⟨c1, c2⟩; linarith)]
      rw [if_neg (by rintro ⟨c1, c2⟩; linarith)]
      rw [if_neg (by rintro ⟨c1, c2⟩; linarith)]
    simp only [smpBaseLime, e]
    rw [if_pos ⟨trivial, h1⟩]
  · intro h1
    have e : smpLookup b = 0 := by
      simp only [smpLookup]
      rw [if_neg (by rintro ⟨c1, c2⟩; linarith)]
      rw [if_neg (by rintro ⟨c1, c2⟩; linarith)]
      rw [if_neg (by rintro ⟨c1, c2⟩; linarith)]
      rw [if_neg (by rintro ⟨c1, c2⟩; linarith)]
      rw [if_neg (by rintro ⟨c1, c2⟩; linarith)]
      rw [if_neg (by rintro ⟨c1, c2⟩; linarith)]
      rw [if_neg (by rintro ⟨c1, c2⟩; linarith)]
      rw [if_neg (by rintro ⟨c1, c2⟩; linarith)]
      rw [if_neg (by rintro ⟨c1, c2⟩; linarith)]
      rw [if_neg (by rintro ⟨c1, c2⟩; linarith)]
      rw [if_neg (by rintro ⟨c1, c2⟩; linarith)]
      rw [if_neg (by rintro ⟨c1, c2⟩; linarith)]
      rw [if_neg (by rintro ⟨c1, c2⟩; linarith)]
      rw [if_neg (by rintro ⟨c1, c2⟩; linarith)]
      rw [if_neg (by rintro ⟨c1, c2⟩; linarith)]
    simp only [smpBaseLime, e]
    rw [if_neg (by rintro ⟨c1, c2⟩; linarith)]

/-- C8 witness: a buffer pH inside the top range gets that range's dose. -/
theorem C8_smp_table_semantics_witness :
    (6.8 : ℚ) ≤ 6.9 ∧ (6.9 : ℚ) < 7.0 ∧ smpBaseLime 6.9 = 0.5 :=
  ⟨by norm_num, by norm_num,
    (C8_smp_table_semantics 6.9).1 (by norm_num) (by norm_num)⟩

/-- C9 counterexample: with buffer pH 5.7 the unscaled table dose is
3.5 t/ha, not above 4, yet on clay texture (factor 1.5, scaled dose 5.25)
the split-application warning fires — the trigger is the texture/depth-scaled
CaCO3 dose, not the unscaled table dose the claim names. -/
theorem C9_trigger_counterexample :
    (limeCalculate ⟨5, some 5.7, "clay", "lateritic", 15, "dolomite"⟩).toOption.map
        (fun r => r.warnings) = some [LimeWarning.splitApplication] ∧
    smpBaseLime 5.7 = 3.5 ∧ ¬ (3.5 : ℚ) > 4 := by
  refine ⟨?_, by norm_num [smpBaseLime, smpLookup], by norm_num⟩
  simp [limeCalculate, calculateBufferPhMethod, targetPh, limeProduct,
    smpLookup, textureFactor, depthFactor, Except.toOption]
  norm_num

/-- C9 (amended): in the buffer-pH path (buffer pH supplied, current pH below
target), the split-application warning is emitted exactly when the
texture- and depth-scaled pure CaCO3 dose — base table dose x texture factor
x depth factor, before the product neutralizing-value conversion — exceeds
4 t/ha. -/
theorem C9_split_warning_trigger (c : LimeCalc) (b : ℚ)
    (hb : c.buffer_ph = some b) (h : c.soil_ph < targetPh c.soil_type) :
    ∃ r, limeCalculate c = Except.ok r ∧
      (LimeWarning.splitApplication ∈ r.warnings ↔
        smpBaseLime b * textureFactor c.soil_texture *
          depthFactor c.depth_cm > 4) := by
  have hnot : ¬ c.soil_ph ≥ targetPh c.soil_type := not_le.mpr h
  simp only [limeCalculate, hb, Option.isSome_some, if_true,
    calculateBufferPhMethod, if_neg hnot]
  refine ⟨_, rfl, ?_⟩
  simp only [smpBaseLime]
  split_ifs with h1 h2 h3 <;> simp_all

/-- C9 witness: the clay-texture input evaluates the trigger equivalence. -/
theorem C9_split_warning_trigger_witness :
    (⟨5, some 5.7, "clay", "lateritic", 15, "dolomite"⟩ : LimeCalc).buffer_ph =
        some 5.7 ∧
    (5 : ℚ) < targetPh "lateritic" ∧
    (∃ r, limeCalculate ⟨5, some 5.7, "clay", "lateritic", 15, "dolomite"⟩ =
        Except.ok r ∧
      (LimeWarning.splitApplication ∈ r.warnings ↔
        smpBaseLime 5.7 * textureFactor "clay" * depthFactor 15 > 4)) :=
  ⟨rfl, by norm_num [targetPh],
    C9_split_warning_trigger ⟨5, some 5.7, "clay", "lateritic", 15, "dolomite"⟩
      5.7 rfl (by norm_num [targetPh])⟩

/-- Helper: round-half-up to one decimal moves a value by at most 1/20. -/
theorem round1_abs_sub_le (q : ℚ) : |round1 q - q| ≤ 1/20 := by
  have h1 : (⌊q * 10 + 1/2⌋ : ℚ) ≤ q * 10 + 1/2 := Int.floor_le _
  have h2 : q * 10 + 1/2 < (⌊q * 10 + 1/2⌋ : ℚ) + 1 := Int.lt_floor_add_one _
  rw [round1, abs_le]
  constructor <;> linarith

/-- Helper: round1 is the identity on integer multiples of 1/10. -/
theorem round1_int_div_ten (k : ℤ) : round1 ((k : ℚ) / 10) = (k : ℚ) / 10 := by
  have : (k : ℚ) / 10 * 10 + 1/2 = (k : ℚ) + 1/2 := by ring
  rw [round1, this]
  rw [Int.floor_int_add]
  norm_num

/-- Helper: Python a % b is nonnegative for a positive divisor. -/
theorem pyMod_nonneg (a b : ℚ) (hb : 0 < b) : 0 ≤ pyMod a b := by
  have h := Int.floor_le (a / b)
  have h2 : b * (⌊a / b⌋ : ℚ) ≤ b * (a / b) :=
    mul_le_mul_of_nonneg_left h (le_of_lt hb)
  rw [mul_div_cancel₀ a (ne_of_gt hb)] at h2
  rw [pyMod]
  linarith

/-- Helper: Python a % b is below a positive divisor b. -/
theorem pyMod_lt (a b : ℚ) (hb : 0 < b) : pyMod a b < b := by
  have h := Int.lt_floor_add_one (a / b)
  have h2 : b * (a / b) < b * ((⌊a / b⌋ : ℚ) + 1) :=
    (mul_lt_mul_left hb).mpr h
  rw [mul_div_cancel₀ a (ne_of_gt hb)] at h2
  rw [pyMod]
  nlinarith

/-- Helper: the Python mod of tenth-multiples by an integer is a
tenth-multiple. -/
theorem pyMod_tenth (m n : ℤ) :
    pyMod ((m : ℚ) / 10) (n : ℚ) =
      ((m - 10 * n * ⌊(m : ℚ) / 10 / (n : ℚ)⌋ : ℤ) : ℚ) / 10 := by
  rw [pyMod]
  push_cast
  field_simp
  ring

/-- Helper: every bag size in the table (and the default) is positive. -/
theorem bagSize_pos (s : String) : 0 < bagSize s := by
  unfold bagSize
  split <;> norm_num

/-- C3: the bag converter satisfies its invariants: the bag size comes from
the fixed per-product table (urea 45, default 50 for unknown products); the
rounded remainder equals the Python mod exactly (both are tenth-multiples);
pre-increment, bag count is the floor of the rounded amount over the bag
size; a remainder above 95% of a bag rounds up into an extra bag with zero
loose; the output loose amount lies in [0, bag_size), never exceeds
0.95 x bag_size, and bags x bag_size + loose reproduces the requested amount
within rounding (half a decimal tick plus at most 5% of one bag when the
round-up rule fires); in particular 48 kg of DAP (0.96 of a 50 kg bag) gives
1 bag and 0 loose. -/
theorem C3_bag_converter (product : String) (kg : ℚ) (B : ℚ)
    (it : ShoppingItem) (hB : B = (bagSize (pyLower product) : ℚ))
    (hit : it = convertToBags product kg) :
    (it.bag_size : ℚ) = B ∧ it.total_kg = round1 kg ∧
    0 ≤ it.loose_kg ∧ it.loose_kg < B ∧ it.loose_kg ≤ B * 0.95 ∧
    |(it.bags * B + it.loose_kg) - kg| ≤ 0.05 * B + 0.05 ∧
    (pyMod (round1 kg) B > B * 0.95 →
      it.bags = ⌊round1 kg / B⌋ + 1 ∧ it.loose_kg = 0) ∧
    (¬ pyMod (round1 kg) B > B * 0.95 →
      it.bags = ⌊round1 kg / B⌋ ∧ it.loose_kg = pyMod (round1 kg) B) ∧
    (convertToBags "dap" 48).bags = 1 ∧ (convertToBags "dap" 48).loose_kg = 0 ∧
    bagSize "urea" = 45 ∧ bagSize "unknown_product" = 50 := by
  have hdap : pyLower "dap" = "dap" := by decide
  have hBpos : (0 : ℤ) < bagSize (pyLower product) := bagSize_pos _
  have hBq : (0 : ℚ) < (bagSize (pyLower product) : ℚ) := by exact_mod_cast hBpos
  subst hB hit
  have hmod := pyMod_tenth ⌊kg * 10 + 1/2⌋ (bagSize (pyLower product))
  have hr1 : round1 (pyMod (round1 kg) (bagSize (pyLower product) : ℚ)) =
      pyMod (round1 kg) (bagSize (pyLower product) : ℚ) := by
    rw [show round1 kg = ((⌊kg * 10 + 1/2⌋ : ℤ) : ℚ) / 10 from rfl, hmod]
    exact round1_int_div_ten _
  have h0 := pyMod_nonneg (round1 kg) _ hBq
  have h1 := pyMod_lt (round1 kg) _ hBq
  have h2 := round1_abs_sub_le kg
  rw [abs_le] at h2
  have hfloor : ((⌊round1 kg / (bagSize (pyLower product) : ℚ)⌋ : ℤ) : ℚ) *
      (bagSize (pyLower product) : ℚ) =
      round1 kg - pyMod (round1 kg) (bagSize (pyLower product) : ℚ) := by
    rw [pyMod]
    ring
  have hdap1 : (convertToBags "dap" 48).bags = 1 ∧
      (convertToBags "dap" 48).loose_kg = 0 := by
    have e1 : round1 (48 : ℚ) = 48 := by
      rw [round1]
      norm_num
    have e2 : pyMod (48 : ℚ) (50 : ℚ) = 48 := by
      rw [pyMod]
      norm_num
    simp only [convertToBags, hdap, bagSize, Int.cast_ofNat, e1, e2]
    norm_num
  have hgen : ((convertToBags product kg).bag_size : ℚ) =
        (bagSize (pyLower product) : ℚ) ∧
      (convertToBags product kg).total_kg = round1 kg ∧
      0 ≤ (convertToBags product kg).loose_kg ∧
      (convertToBags product kg).loose_kg < (bagSize (pyLower product) : ℚ) ∧
      (convertToBags product kg).loose_kg ≤
        (bagSize (pyLower product) : ℚ) * 0.95 ∧
      |((convertToBags product kg).bags * (bagSize (pyLower product) : ℚ) +
          (convertToBags product kg).loose_kg) - kg| ≤
        0.05 * (bagSize (pyLower product) : ℚ) + 0.05 ∧
      (pyMod (round1 kg) (bagSize (pyLower product) : ℚ) >
          (bagSize (pyLower product) : ℚ) * 0.95 →
        (convertToBags product kg).bags =
            ⌊round1 kg / (bagSize (pyLower product) : ℚ)⌋ + 1 ∧
          (convertToBags product kg).loose_kg = 0) ∧
      (¬ pyMod (round1 kg) (bagSize (pyLower product) : ℚ) >
          (bagSize (pyLower product) : ℚ) * 0.95 →
        (convertToBags product kg).bags =
            ⌊round1 kg / (bagSize (pyLower product) : ℚ)⌋ ∧
          (convertToBags product kg).loose_kg =
            pyMod (round1 kg) (bagSize (pyLower product) : ℚ)) := by
    simp only [convertToBags, hr1]
    split_ifs with hcase
    · dsimp only
      refine ⟨rfl, rfl, le_refl 0, hBq, by linarith, ?_, fun _ => ⟨rfl, rfl⟩,
        fun hn => absurd hcase hn⟩
      push_cast
      rw [abs_le]
      constructor <;> linarith
    · dsimp only
      refine ⟨rfl, rfl, h0, h1, not_lt.mp hcase, ?_,
        fun hp => absurd hp hcase, fun _ => ⟨rfl, rfl⟩⟩
      rw [abs_le]
      constructor <;> linarith
  exact ⟨hgen.1, hgen.2.1, hgen.2.2.1, hgen.2.2.2.1, hgen.2.2.2.2.1,
    hgen.2.2.2.2.2.1, hgen.2.2.2.2.2.2.1, hgen.2.2.2.2.2.2.2, hdap1.1,
    hdap1.2, by decide, by decide⟩

/-- C3 witness: the invariants evaluated at urea, 100 kg. -/
theorem C3_bag_converter_witness :
    ((45 : ℚ) = (bagSize (pyLower "urea") : ℚ) ∧
      convertToBags "urea" 100 = convertToBags "urea" 100) ∧
    ((convertToBags "urea" 100).bag_size : ℚ) = 45 ∧
    (convertToBags "urea" 100).total_kg = round1 100 ∧
    0 ≤ (convertToBags "urea" 100).loose_kg :=
  have h : (45 : ℚ) = (bagSize (pyLower "urea") : ℚ) := by decide
  have main := C3_bag_converter "urea" 100 45 (convertToBags "urea" 100) h rfl
  ⟨⟨h, rfl⟩, main.1, main.2.1, main.2.2.1⟩

/-- C4 counterexample: the strict-reduction part of the claim fails on inputs
whose product masses are already zero — with 1 ton of FYM the net urea mass
equals the zero-manure baseline (both zero) instead of being strictly
smaller. -/
theorem C4_strict_reduction_counterexample :
    (simplifyAdvisory 0 0 0 0 0 (some "fym") 1).net_urea_acre =
      (simplifyAdvisory 0 0 0 0 0 (some "fym") 0).net_urea_acre ∧
    (simplifyAdvisory 0 0 0 0 0 (some "fym") 1).net_urea_acre = 0 := by
  norm_num [simplifyAdvisory, calculateManureCredit, MANURE_NUTRIENTS, max_def]

/-- C4 (amended): for a recognized manure type and manure_tons > 0, each
product mass carries the credit quantity_tons x 1000 x (%content / 100) x
availability, divided by that product's nutrient fraction (0.46 urea/DAP,
0.60 MOP) and floored at zero; relative to the manure_tons = 0 baseline no
mass ever increases, none goes negative, and each mass strictly decreases
whenever its baseline is positive; the shopping list applies bag conversion
to the post-credit masses (credit before bag-rounding). -/
theorem C4_manure_credit (urea dap mop zinc lime tons : ℚ) (mt : String)
    (d : ManureData) (hmt : MANURE_NUTRIENTS mt = some d)
    (hu : 0 ≤ urea) (hd : 0 ≤ dap) (hm : 0 ≤ mop) (htons : 0 < tons) :
    (simplifyAdvisory urea dap mop zinc lime (some mt) tons).net_urea_acre =
        max 0 (urea / 2.5 -
          (tons * 1000 * (d.n_pct / 100) * d.availability) / 0.46) ∧
    (simplifyAdvisory urea dap mop zinc lime (some mt) tons).net_dap_acre =
        max 0 (dap / 2.5 -
          (tons * 1000 * (d.p_pct / 100) * d.availability) / 0.46) ∧
    (simplifyAdvisory urea dap mop zinc lime (some mt) tons).net_mop_acre =
        max 0 (mop / 2.5 -
          (tons * 1000 * (d.k_pct / 100) * d.availability) / 0.60) ∧
    (simplifyAdvisory urea dap mop zinc lime (some mt) 0).net_urea_acre =
        urea / 2.5 ∧
    (simplifyAdvisory urea dap mop zinc lime (some mt) 0).net_dap_acre =
        dap / 2.5 ∧
    (simplifyAdvisory urea dap mop zinc lime (some mt) 0).net_mop_acre =
        mop / 2.5 ∧
    0 ≤ (simplifyAdvisory urea dap mop zinc lime (some mt) tons).net_urea_acre ∧
    0 ≤ (simplifyAdvisory urea dap mop zinc lime (some mt) tons).net_dap_acre ∧
    0 ≤ (simplifyAdvisory urea dap mop zinc lime (some mt) tons).net_mop_acre ∧
    (simplifyAdvisory urea dap mop zinc lime (some mt) tons).net_urea_acre ≤
      (simplifyAdvisory urea dap mop zinc lime (some mt) 0).net_urea_acre ∧
    (simplifyAdvisory urea dap mop zinc lime (some mt) tons).net_dap_acre ≤
      (simplifyAdvisory urea dap mop zinc lime (some mt) 0).net_dap_acre ∧
    (simplifyAdvisory urea dap mop zinc lime (some mt) tons).net_mop_acre ≤
      (simplifyAdvisory urea dap mop zinc lime (some mt) 0).net_mop_acre ∧
    (0 < urea →
      (simplifyAdvisory urea dap mop zinc lime (some mt) tons).net_urea_acre <
        (simplifyAdvisory urea dap mop zinc lime (some mt) 0).net_urea_acre) ∧
    (0 < dap →
      (simplifyAdvisory urea dap mop zinc lime (some mt) tons).net_dap_acre <
        (simplifyAdvisory urea dap mop zinc lime (some mt) 0).net_dap_acre) ∧
    (0 < mop →
      (simplifyAdvisory urea dap mop zinc lime (some mt) tons).net_mop_acre <
        (simplifyAdvisory urea dap mop zinc lime (some mt) 0).net_mop_acre) ∧
    convertToBags "urea"
        (simplifyAdvisory urea dap mop zinc lime (some mt) tons).net_urea_acre ∈
      (simplifyAdvisory urea dap mop zinc lime (some mt) tons).shopping ∧
    convertToBags "dap"
        (simplifyAdvisory urea dap mop zinc lime (some mt) tons).net_dap_acre ∈
      (simplifyAdvisory urea dap mop zinc lime (some mt) tons).shopping ∧
    convertToBags "mop"
        (simplifyAdvisory urea dap mop zinc lime (some mt) tons).net_mop_acre ∈
      (simplifyAdvisory urea dap mop zinc lime (some mt) tons).shopping := by
  unfold MANURE_NUTRIENTS at hmt
  split at hmt
  all_goals try exact Option.noConfusion hmt
  all_goals injection hmt with hinj
  all_goals subst hinj
  all_goals (
    simp only [simplifyAdvisory, calculateManureCredit, MANURE_NUTRIENTS,
      if_pos htons, if_neg (gt_irrefl (0 : ℚ))]
    refine ⟨by trivial, by trivial, by trivial, by trivial, by trivial,
      by trivial, le_max_left 0 _, le_max_left 0 _, le_max_left 0 _,
      max_le (by norm_num; try linarith) (by norm_num; try linarith),
      max_le (by norm_num; try linarith) (by norm_num; try linarith),
      max_le (by norm_num; try linarith) (by norm_num; try linarith),
      fun h => max_lt (by norm_num; try linarith) (by norm_num; try linarith),
      fun h => max_lt (by norm_num; try linarith) (by norm_num; try linarith),
      fun h => max_lt (by norm_num; try linarith) (by norm_num; try linarith),
      ?_, ?_, ?_⟩ <;>
      simp [List.mem_append])

/-- C4 witness: one ton of FYM strictly reduces a positive urea mass. -/
theorem C4_manure_credit_witness :
    MANURE_NUTRIENTS "fym" = some ⟨0.5, 0.25, 0.5, 0.3⟩ ∧ (0 : ℚ) < 1 ∧
    (0 : ℚ) < 46 ∧
    (simplifyAdvisory 46 46 60 0 0 (some "fym") 1).net_urea_acre <
      (simplifyAdvisory 46 46 60 0 0 (some "fym") 0).net_urea_acre :=
  have hmt : MANURE_NUTRIENTS "fym" = some ⟨0.5, 0.25, 0.5, 0.3⟩ := rfl
  ⟨hmt, by norm_num, by norm_num,
    (C4_manure_credit 46 46 60 0 0 1 "fym" ⟨0.5, 0.25, 0.5, 0.3⟩ hmt
        (by norm_num) (by norm_num) (by norm_num)
        (by norm_num)).2.2.2.2.2.2.2.2.2.2.2.2.1 (by norm_num)⟩

/-- C5 counterexample: an unknown crop in an otherwise valid lab-mode request
escapes process_request as a raised ValueError (an uncaught fault into the
request layer), not as a structured error payload. -/
theorem C5_unknown_crop_counterexample :
    processRequest [] (fun _ => none)
        ⟨some "mango", some (.num 5.5), some (.num 100), some (.num 20),
          some (.num 100), none, none, none, none, none, none, none⟩ =
      Except.error "Unknown crop: mango" := by
  have hm : pyLower "mango" = "mango" := by decide
  have hcrop : CROP_NUTRIENT_UPTAKE "mango" = none := by decide
  norm_num [processRequest, runModels, pyFloat, getStatus, hm, hcrop,
    calculateLime, limeCalculate, calculateBufferPhMethod, targetPh,
    limeProduct, calculateFertilizer]
  decide

/-- C5 (amended): the request layer returns structured error payloads for
missing soil data / coordinates, a non-numeric lab pH, and non-numeric
coordinates; an unknown crop identifier, by contrast, never defaults
silently but raises an explicit "Unknown crop" ValueError that propagates
out of process_request uncaught. -/
theorem C5_error_paths (bounds : List TalukBound)
    (profiles : String → Option BaseProfile) (req : Request) :
    ((req.ph = none ∨ req.nitrogen_kg_ha = none) →
      (req.lat = none ∨ req.lon = none) →
      processRequest bounds profiles req =
        Except.ok (.errPayload "Missing Soil Data or GPS Coordinates")) ∧
    (∀ s nv, req.ph = some (PyVal.str s) → req.nitrogen_kg_ha = some nv →
      processRequest bounds profiles req =
        Except.ok (.errPayload "Invalid numeric values in Soil Data")) ∧
    (∀ latv lonv, (req.ph = none ∨ req.nitrogen_kg_ha = none) →
      req.lat = some latv → req.lon = some lonv →
      (pyFloat latv = none ∨ pyFloat lonv = none) →
      processRequest bounds profiles req =
        Except.ok (.errPayload "Invalid Latitude/Longitude")) ∧
    (∀ phv nv pv kv ph z, req.ph = some phv → req.nitrogen_kg_ha = some nv →
      req.phosphorus_kg_ha = some pv → req.potassium_kg_ha = some kv →
      pyFloat phv = some ph →
      pyFloat (req.zinc_ppm.getD (.num 0.5)) = some z →
      CROP_NUTRIENT_UPTAKE (pyLower (req.crop.getD "Paddy")) = none →
      processRequest bounds profiles req =
        Except.error ("Unknown crop: " ++ req.crop.getD "Paddy")) := by
  refine ⟨?_, ?_, ?_, ?_⟩
  · intro h1 h2
    rcases hph : req.ph with _ | phv
    · rcases hlat : req.lat with _ | lv
      · simp [processRequest, hph, hlat]
      · rcases h2 with h2 | h2
        · rw [hlat] at h2
          cases h2
        · simp [processRequest, hph, hlat, h2]
    · rcases h1 with h1 | h1
      · rw [hph] at h1
        cases h1
      · rcases hlat : req.lat with _ | lv
        · simp [processRequest, hph, h1, hlat]
        · rcases h2 with h2 | h2
          · rw [hlat] at h2
            cases h2
          · simp [processRequest, hph, h1, hlat, h2]
  · intro s nv h1 h2
    simp [processRequest, h1, h2, pyFloat]
  · intro latv lonv hmiss hlat hlon hbad
    rcases hph : req.ph with _ | phv
    · rcases hbad with hbad | hbad <;>
        rcases hfl : pyFloat latv with _ | x <;>
        rcases hfo : pyFloat lonv with _ | y <;>
        simp_all [processRequest, hph, hlat, hlon]
    · rcases hmiss with h1 | h1
      · rw [hph] at h1
        cases h1
      · rcases hbad with hbad | hbad <;>
          rcases hfl : pyFloat latv with _ | x <;>
          rcases hfo : pyFloat lonv with _ | y <;>
          simp_all [processRequest, hph, h1, hlat, hlon]
  · intro phv nv pv kv ph z h1 h2 h3 h4 hph hz hcrop
    simp only [processRequest, h1, h2, h3, h4, hph, hz, runModels]
    rcases le_or_lt (targetPh "lateritic") ph with hc | hc
    · simp [calculateLime, limeCalculate, calculateBufferPhMethod,
        if_pos (show ph ≥ targetPh "lateritic" from hc),
        calculateFertilizer, hcrop]
    · simp [calculateLime, limeCalculate, calculateBufferPhMethod,
        if_neg (show ¬ ph ≥ targetPh "lateritic" from not_le.mpr hc),
        calculateFertilizer, hcrop]

/-- C5 witness: the empty request yields the structured missing-data
payload. -/
theorem C5_error_paths_witness :
    ((⟨none, none, none, none, none, none, none, none, none, none, none,
        none⟩ : Request).ph = none ∨
      (⟨none, none, none, none, none, none, none, none, none, none, none,
        none⟩ : Request).nitrogen_kg_ha = none) ∧
    processRequest [] (fun _ => none)
        ⟨none, none, none, none, none, none, none, none, none, none, none,
          none⟩ =
      Except.ok (.errPayload "Missing Soil Data or GPS Coordinates") :=
  ⟨Or.inl rfl,
    (C5_error_paths [] (fun _ => none)
        ⟨none, none, none, none, none, none, none, none, none, none, none,
          none⟩).1 (Or.inl rfl) (Or.inl rfl)⟩
